import Mathlib

/-!
Shallow embedding of the `ai-stock-market-analysis` backend, covering the
background-task slot in `src/backend/api.py`, the market-data fetchers in
`src/backend/stock_data.py` and `src/archive/main.py`, the sector
classification and ranking logic in `src/backend/ai_utils.py`, and the
filename guards of the download and view endpoints.

Python module-level mutable globals are modelled by explicit state passing;
raising code is modelled with `Except`; `None`-able values with `Option`.
Floats are modelled by `ℚ` (the programs only add, subtract, multiply and
divide market figures).
-/

namespace StockSpec

/-! ## Task slot state (`src/backend/api.py`, module globals lines 78-84)

The five globals `current_task`, `task_progress`, `task_total`,
`task_message`, `task_complete`.  `current_task` is `None` or a task-name
string, hence `Option String`. -/

structure TaskState where
  current_task : Option String
  task_progress : Nat
  task_total : Nat
  task_message : String
  task_complete : Bool
deriving Repr, DecidableEq

/-- `reset_task_status` (api.py lines 86-93): restores every global to its
initial value. -/
def reset_task_status (_s : TaskState) : TaskState :=
  { current_task := none
    task_progress := 0
    task_total := 0
    task_message := ""
    task_complete := false }

/-- Result of a job-start HTTP handler: either a busy rejection carrying the
HTTP status code and message (returned before any state change), or a
success response (returned after the handler's state writes, with the
background thread about to run). -/
inductive StartResult where
  | busy (code : Nat) (message : String)
  | started (message : String)
deriving Repr, DecidableEq

/-- Python truthiness of an `Option String` value (`if current_task:`):
`None` and the empty string are falsy. -/
def pyTruthy : Option String → Bool
  | none => false
  | some t => t ≠ ""

/-- `fetch_data` handler (api.py lines 138-162).  Guard: `current_task is
not None` → 400 rejection with no state change.  Otherwise the only state
write before the thread starts is `current_task = "Fetching stock data"`. -/
def fetch_data (s : TaskState) : StartResult × TaskState :=
  match s.current_task with
  | some t => (.busy 400 ("Another task is already running: " ++ t), s)
  | none =>
      (.started "Started fetching stock data",
       { s with current_task := some "Fetching stock data" })

/-- `get_recommendations` handler (api.py lines 226-260).  Guard:
`if current_task:` (truthiness) → 409 rejection with no state change.
Otherwise `reset_task_status()`, then `task_complete = False`, then
`current_task = "Generating recommendations"` before the thread starts. -/
def get_recommendations (s : TaskState) : StartResult × TaskState :=
  if pyTruthy s.current_task then
    (.busy 409 ("Another task is already running: " ++ s.current_task.getD ""), s)
  else
    let s1 := reset_task_status s
    let s2 := { s1 with task_complete := false,
                        current_task := some "Generating recommendations" }
    (.started "Started generating recommendations", s2)

/-- `task_status` handler (api.py lines 314-323): reports the five state
fields verbatim. -/
def task_status (s : TaskState) :
    Option String × Nat × Nat × String × Bool :=
  (s.current_task, s.task_progress, s.task_total, s.task_message, s.task_complete)

/-! ## Background worker bodies

The interesting part of each worker (loading symbols, fetching quotes,
calling the AI service) performs I/O; it is abstracted as a state
transformer that either finishes with a final state or raises carrying the
state at the moment of the raise.  The `try`/`except`/`finally` skeleton of
each task function is embedded literally. -/

/-- One worker body: `.ok s2` is normal completion of the `try` block up to
its final three writes, `.error (e, se)` is an exception `e` raised while
the state was `se`. -/
abbrev WorkerBody := TaskState → Except (String × TaskState) TaskState

/-- `fetch_data_task` (api.py lines 164-224).  The `try` block first writes
`task_progress = 0`, `task_total = 100`, `task_message = "Initializing..."`;
on normal completion it writes `task_progress = task_total`, the completion
message, and `task_complete = True`; the `except` branch writes the error
message and `task_complete = True`; the `finally` block clears
`current_task` on both paths. -/
def fetch_data_task (s : TaskState) (body : WorkerBody) : TaskState :=
  let s0 := { s with task_progress := 0, task_total := 100,
                     task_message := "Initializing..." }
  match body s0 with
  | .ok s2 =>
      { s2 with task_progress := s2.task_total,
                task_message := "Data fetching complete!",
                task_complete := true,
                current_task := none }
  | .error (e, se) =>
      { se with task_message := "Error: " ++ e,
                task_complete := true,
                current_task := none }

/-- `recommendations_task` (api.py lines 272-312), same skeleton with its
own initial and final messages and `task_progress = 100` on success. -/
def recommendations_task (s : TaskState) (body : WorkerBody) : TaskState :=
  let s0 := { s with task_progress := 0, task_total := 100,
                     task_message := "Initializing AI analysis..." }
  match body s0 with
  | .ok s2 =>
      { s2 with task_progress := 100,
                task_message := "Recommendations generated successfully!",
                task_complete := true,
                current_task := none }
  | .error (e, se) =>
      { se with task_message := "Error: " ++ e,
                task_complete := true,
                current_task := none }

/-! ## Market data: backend fetcher (`src/backend/stock_data.py` lines 181-240)

A Finnhub quote dictionary carries the current price `c` and, possibly, the
previous close `pc`; company profile and financial metric dictionaries have
optional entries.  A value that Python code may hold as either a number or
the string sentinel is a `PyVal`. -/

inductive PyVal where
  | num (q : ℚ)
  | str (s : String)
deriving Repr, DecidableEq

structure Quote where
  c : ℚ
  pc : Option ℚ
deriving Repr, DecidableEq

structure CompanyProfile where
  longName : Option String
  finnhubIndustry : Option String
  marketCapitalization : Option ℚ
deriving Repr, DecidableEq

structure Metrics where
  peBasicExcl : Option ℚ
  dividendYieldIndicatedAnnual : Option ℚ
deriving Repr, DecidableEq

structure BackendRecord where
  symbol : String
  name : String
  price : ℚ
  ytd : ℚ
  sector : String
  industry : String
  market_cap : PyVal
  pe_ratio : PyVal
  dividend_yield : PyVal
deriving Repr, DecidableEq

/-- YTD expression of stock_data.py line 197:
`((c - pc) / pc) * 100 if quote.get(pc) else 0`; the guard is Python
truthiness of `pc`, so both a missing and a zero previous close give 0. -/
def backendYtd (c : ℚ) (pc : Option ℚ) : ℚ :=
  match pc with
  | some p => if p ≠ 0 then ((c - p) / p) * 100 else 0
  | none => 0

/-- The degraded record returned by the except branch of `fetch_stock_data`
(stock_data.py lines 228-240). -/
def backendSentinel (symbol : String) : BackendRecord :=
  { symbol := symbol
    name := symbol
    ytd := 0
    sector := "Unknown"
    industry := "Unknown"
    market_cap := .str "Unknown"
    pe_ratio := .str "Unknown"
    dividend_yield := .str "Unknown"
    price := 0 }

/-- The try block of `fetch_stock_data` (stock_data.py lines 185-226): the
only raise is `Failed to fetch quote data` when the quote helper returned
`None`; profile and financial dictionaries fall back field by field. -/
def fetch_stock_data_try (symbol : String) (quote : Option Quote)
    (profile : Option CompanyProfile) (financials : Option Metrics) :
    Except String BackendRecord :=
  match quote with
  | none => .error "Failed to fetch quote data"
  | some q =>
      let company_name := match profile with
        | some p => p.longName.getD symbol
        | none => symbol
      let industry := match profile with
        | some p => p.finnhubIndustry.getD "Unknown"
        | none => "Unknown"
      let market_cap : PyVal := match profile with
        | some p => .num (p.marketCapitalization.getD 0)
        | none => .num 0
      let peVal : PyVal := match financials with
        | some m => (m.peBasicExcl.map PyVal.num).getD (.str "Unknown")
        | none => .str "Unknown"
      let dyVal : PyVal := match financials with
        | some m => (m.dividendYieldIndicatedAnnual.map PyVal.num).getD (.str "Unknown")
        | none => .str "Unknown"
      .ok { symbol := symbol
            name := company_name
            price := q.c
            ytd := backendYtd q.c q.pc
            sector := industry
            industry := industry
            market_cap := market_cap
            pe_ratio := peVal
            dividend_yield := dyVal }

/-- `fetch_stock_data` (stock_data.py lines 181-240): catches every raise of
the try block and returns the sentinel record instead, so it is total. -/
def fetch_stock_data (symbol : String) (quote : Option Quote)
    (profile : Option CompanyProfile) (financials : Option Metrics) :
    BackendRecord :=
  match fetch_stock_data_try symbol quote profile financials with
  | .ok r => r
  | .error _ => backendSentinel symbol

/-! ## Market data: archive fetcher (`src/archive/main.py` lines 40-77) -/

/-- Python `round` to an integer, idealised on ℚ: round half to even. -/
def roundHalfEven (q : ℚ) : ℤ :=
  if q - ⌊q⌋ < 1 / 2 then ⌊q⌋
  else if q - ⌊q⌋ > 1 / 2 then ⌊q⌋ + 1
  else if Even (⌊q⌋ : ℤ) then ⌊q⌋ else ⌊q⌋ + 1

/-- Python `round(x, 2)` idealised on ℚ. -/
def round2 (q : ℚ) : ℚ := (roundHalfEven (q * 100) : ℚ) / 100

/-- YTD change over the calendar-year close series (archive main.py lines
52-57): last close against first close when the history is nonempty, else 0.
The source divides without guarding a zero start price; numpy then yields a
non-finite float, modelled here as `none`. -/
def archiveYtdChange (histClose : List ℚ) : Option ℚ :=
  match histClose.head?, histClose.getLast? with
  | some ytd_start_price, some current_price =>
      if ytd_start_price = 0 then none
      else some (((current_price - ytd_start_price) / ytd_start_price) * 100)
  | _, _ => some 0

/-- The data one successful yfinance attempt yields: the info dictionary
entry `longName` and the YTD close series. -/
structure YfInfo where
  longName : Option String
  histClose : List ℚ
deriving Repr, DecidableEq

/-- The record the archive fetcher returns; `ytd` is `none` exactly when the
unguarded division produced a non-finite float. -/
structure ArchiveRecord where
  symbol : String
  name : String
  ytd : Option ℚ
deriving Repr, DecidableEq

/-- Record built on a successful attempt (archive main.py lines 59-63). -/
def archiveRecord (symbol : String) (info : YfInfo) : ArchiveRecord :=
  { symbol := symbol
    name := info.longName.getD "Unknown"
    ytd := (archiveYtdChange info.histClose).map round2 }

/-- The retry loop of the archive `fetch_stock_data` (main.py lines 41-77),
recursing on the number of remaining loop iterations.  `provider i` is the
outcome of the i-th yfinance attempt; `attempt` is the current loop index.
On success the record is returned at once; on failure the loop continues
while iterations remain after the current one (source guard
`attempt < max_retries - 1`, here `remaining ≠ 0`), and the last iteration
returns the degraded record.  With zero iterations the Python function falls
off the loop and implicitly returns `None`.  The second component counts the
attempts actually made. -/
def archiveFetchGo (symbol : String) (provider : ℕ → Except String YfInfo)
    (attempt : ℕ) : ℕ → Option ArchiveRecord × ℕ
  | 0 => (none, attempt)
  | remaining + 1 =>
      match provider attempt with
      | .ok info => (some (archiveRecord symbol info), attempt + 1)
      | .error _ =>
          if remaining = 0 then
            (some { symbol := symbol, name := symbol, ytd := some 0 }, attempt + 1)
          else
            archiveFetchGo symbol provider (attempt + 1) remaining

/-- Archive `fetch_stock_data(symbol, max_retries)` (main.py lines 40-77). -/
def archive_fetch_stock_data (symbol : String)
    (provider : ℕ → Except String YfInfo) (max_retries : ℕ) :
    Option ArchiveRecord × ℕ :=
  archiveFetchGo symbol provider 0 max_retries

/-! ## Persistence (`load_mock_data`, `save_stock_data`) -/

/-- One row of the cached NASDAQ frame, restricted to the columns the
analysis pipeline reads. -/
structure StockRow where
  symbol : String
  name : String
  ytd : ℚ
  sector : String
deriving Repr, DecidableEq

abbrev Frame := List StockRow

/-- Filesystem view of the CSV at
`DATA_DIR/nasdaq100_mock_data.csv`: the file is absent, present but
unreadable or unparsable, or parsed to a frame.  The per-column
`pd.to_numeric` normalisation with coercing error handling cannot raise and
is folded into the parse outcome. -/
inductive MockCsv where
  | absent
  | unreadable (err : String)
  | parsed (df : Frame)
deriving Repr, DecidableEq

/-- The try-block body of `load_mock_data` (stock_data.py lines 270-284):
parsing may raise; an absent file short-circuits to the empty frame. -/
def load_mock_data_try (fs : MockCsv) : Except String Frame :=
  match fs with
  | .parsed df => .ok df
  | .unreadable e => .error e
  | .absent => .ok []

/-- `load_mock_data` (stock_data.py lines 266-287): the except branch turns
any raise into the empty frame, so the load is total. -/
def load_mock_data (fs : MockCsv) : Frame :=
  match load_mock_data_try fs with
  | .ok df => df
  | .error _ => []

/-- The caching pattern shared by `data_status`, `get_mock_data` and
`get_stocks` (api.py lines 127-136): the process-lifetime global `nasdaq_df`
is used when already populated, otherwise `load_mock_data` fills it. -/
def data_status_frame (nasdaq_df : Option Frame) (fs : MockCsv) : Frame :=
  match nasdaq_df with
  | some df => df
  | none => load_mock_data fs

/-- `has_data` reported by the `data_status` endpoint. -/
def data_status_has_data (nasdaq_df : Option Frame) (fs : MockCsv) : Bool :=
  !(data_status_frame nasdaq_df fs).isEmpty

/-- `save_stock_data` (api.py lines 95-108), with the outcome of the
`to_csv` call as an explicit parameter.  Returns the Bool result and
whether a CSV write was attempted at all. -/
def save_stock_data (df : Option Frame) (writeResult : Except String Unit) :
    Bool × Bool :=
  match df with
  | none => (false, false)
  | some d =>
      if d.isEmpty then (false, false)
      else
        match writeResult with
        | .ok _ => (true, true)
        | .error _ => (false, true)

/-! ## Sector classification (`src/backend/ai_utils.py` lines 198-233) -/

/-- Default value of `config.SECTORS` (config.py lines 82-84). -/
def SECTORS : List String :=
  ["Technology", "Consumer Cyclical", "Industrials", "Utilities", "Healthcare",
   "Communication", "Energy", "Consumer Defensive", "Real Estate", "Financial"]

/-- Does `hay` start with `needle`? -/
def listStartsWith : List Char → List Char → Bool
  | [], _ => true
  | _ :: _, [] => false
  | a :: as, b :: bs => a = b && listStartsWith as bs

/-- Does `needle` occur contiguously inside `hay`? -/
def listHasSub (needle hay : List Char) : Bool :=
  listStartsWith needle hay ||
    match hay with
    | [] => false
    | _ :: t => listHasSub needle t

/-- Python `str.lower`, character by character. -/
def pyLower (cs : List Char) : List Char := cs.map Char.toLower

/-- The whitespace characters Python `str.strip` removes. -/
def isStripped (c : Char) : Bool :=
  c = ' ' || c = '\t' || c = '\n' || c = '\r'

/-- Python `str.strip`: drop whitespace from both ends. -/
def pyStrip (cs : List Char) : List Char :=
  ((cs.dropWhile isStripped).reverse.dropWhile isStripped).reverse

/-- The validation half of `classify_sector` (ai_utils.py lines 220-233),
parameterised by the raw `call_ai_service` response string: exact list
membership, then a bidirectional case-insensitive substring scan over the
sector list, then the hard-coded default. -/
def classify_sector (result : String) : String :=
  if SECTORS.contains result then result
  else
    let result_lower := pyStrip (pyLower result.data)
    match SECTORS.find? (fun sector =>
        listHasSub (pyLower sector.data) result_lower ||
        listHasSub result_lower (pyLower sector.data)) with
    | some sector => sector
    | none => "Technology"

/-! ## Ranking and sector means (`src/backend/ai_utils.py` lines 235-262) -/

/-- `nasdaq_data.sort_values(by=ytd, ascending=False).head(top_n)`
(ai_utils.py line 245).  `sort_values` with its default unstable kind fixes
no order on ties, so any comparison sort embeds it; insertion sort is used
throughout. -/
def top_performers (rows : List StockRow) (top_n : ℕ) : List StockRow :=
  (List.insertionSort (fun a b => b.ytd ≤ a.ytd) rows).take top_n

/-- `nasdaq_data.sort_values(by=ytd, ascending=True).head(bottom_n)`
(ai_utils.py line 246). -/
def bottom_performers (rows : List StockRow) (bottom_n : ℕ) : List StockRow :=
  (List.insertionSort (fun a b => a.ytd ≤ b.ytd) rows).take bottom_n

/-- Lexicographic code-point comparison of strings as character lists, the
order pandas uses for string group keys. -/
def listCharLe : List Char → List Char → Bool
  | [], _ => true
  | _ :: _, [] => false
  | a :: as, b :: bs =>
      if a.toNat < b.toNat then true
      else if b.toNat < a.toNat then false
      else listCharLe as bs

/-- `groupby(sector)[ytd].mean()` re-sorted by mean descending (ai_utils.py
lines 249-250).  pandas groupby emits keys sorted ascending; each key maps
to the mean YTD of its group. -/
def sector_performance (rows : List StockRow) : List (String × ℚ) :=
  let keys := List.insertionSort (fun a b => listCharLe a.data b.data = true)
    ((rows.map (fun r => r.sector)).dedup)
  let table := keys.map (fun sec =>
    let g := rows.filter (fun r => r.sector == sec)
    (sec, (g.map (fun r => r.ytd)).sum / (g.length : ℚ)))
  List.insertionSort (fun a b => b.2 ≤ a.2) table

/-- A five-row frame with the YTD values of the ranking test vector,
spread over two sectors. -/
def sampleRows : List StockRow :=
  [⟨"A", "A", 10, "Tech"⟩, ⟨"B", "B", -5, "Health"⟩, ⟨"C", "C", 20, "Tech"⟩,
   ⟨"D", "D", 0, "Health"⟩, ⟨"E", "E", -15, "Tech"⟩]

/-! ## Download and view guards (`src/backend/api.py` lines 361-407) -/

/-- Observable start of a file-serving handler: rejection before any
filesystem access, or the first filesystem probe together with the path it
touches. -/
inductive FileAccess where
  | rejectedInvalidType
  | filesystemProbe (path : String)
deriving Repr, DecidableEq

/-- `config.RESULTS_DIR`, relative to the backend data directory. -/
def RESULTS_DIR : String := "data/results"

/-- Python `filename.endswith(suffix)`. -/
def pyEndsWith (s suffix : String) : Bool :=
  listStartsWith suffix.data.reverse s.data.reverse

/-- `download_file` (api.py lines 361-387): only the extension check runs
before `os.path.join` and the `os.path.exists` probe. -/
def download_file (filename : String) : FileAccess :=
  if !(pyEndsWith filename ".md" || pyEndsWith filename ".txt") then
    .rejectedInvalidType
  else
    .filesystemProbe (RESULTS_DIR ++ "/" ++ filename)

/-- `view_recommendation` (api.py lines 389-407): identical guard, and the
file at the joined path is then opened and read. -/
def view_recommendation (filename : String) : FileAccess :=
  if !(pyEndsWith filename ".md" || pyEndsWith filename ".txt") then
    .rejectedInvalidType
  else
    .filesystemProbe (RESULTS_DIR ++ "/" ++ filename)

/-- Splits a character list at every slash. -/
def splitSlash : List Char → List (List Char)
  | [] => [[]]
  | c :: rest =>
      let r := splitSlash rest
      if c = '/' then [] :: r
      else
        match r with
        | [] => [[c]]
        | g :: gs => (c :: g) :: gs

/-- Walks the slash-separated components of a relative path keeping the
normalised depth; true when a parent-directory component steps above the
join root. -/
def escapesFrom (parts : List (List Char)) (depth : ℕ) : Bool :=
  match parts with
  | [] => false
  | p :: rest =>
      if p = ['.', '.'] then
        if depth = 0 then true else escapesFrom rest (depth - 1)
      else if p = ['.'] || p = [] then escapesFrom rest depth
      else escapesFrom rest (depth + 1)

/-- The property named by the specification: a relative filename resolves
outside the directory it is joined to when path normalisation steps above
the join root. -/
def resolvesOutside (filename : String) : Bool :=
  escapesFrom (splitSlash filename.data) 0

/-! ## Claim theorems -/

/-- C1, counterexample: with the slot free and stale completion data in the
task-state globals (progress 7, total 9, complete true), the `fetch_data`
handler starts the background job after setting only `current_task`; at the
moment the job begins, progress is not 0, total is not 0 and complete is
still true, contradicting the claimed reset. -/
theorem c1_fetch_does_not_reset :
    ¬ ((fetch_data ⟨none, 7, 9, "previous run", true⟩).2.task_progress = 0 ∧
       (fetch_data ⟨none, 7, 9, "previous run", true⟩).2.task_total = 0 ∧
       (fetch_data ⟨none, 7, 9, "previous run", true⟩).2.task_complete = false) := by
  decide

/-- C1 (amended): a job-start request arriving while `current_task` is set
(and, for `get_recommendations`, nonempty, since that handler tests Python
truthiness) is rejected with a Busy response (400 for fetch-data, 409 for
get-recommendations) leaving every task-state field unchanged; a request
arriving while `current_task` is null sets it to the new task name, but only
`get_recommendations` also resets progress to 0, total to 0, message to
empty and complete to false before the background job runs, while
`fetch_data` leaves the other four fields at their previous values. -/
theorem c1_single_task_slot (s : TaskState) :
    (∀ t, s.current_task = some t →
        fetch_data s = (.busy 400 ("Another task is already running: " ++ t), s)) ∧
    (∀ t, s.current_task = some t → t ≠ "" →
        get_recommendations s =
          (.busy 409 ("Another task is already running: " ++ t), s)) ∧
    (s.current_task = none →
        (fetch_data s).2 = { s with current_task := some "Fetching stock data" } ∧
        (get_recommendations s).2 =
          { current_task := some "Generating recommendations", task_progress := 0,
            task_total := 0, task_message := "", task_complete := false }) := by
  refine ⟨?_, ?_, ?_⟩
  · intro t ht
    simp [fetch_data, ht]
  · intro t ht hne
    simp [get_recommendations, pyTruthy, ht, hne]
  · intro h
    constructor
    · simp [fetch_data, h]
    · simp [get_recommendations, pyTruthy, h, reset_task_status]

/-- Witness for C1 at concrete states: a busy rejection with the state
returned untouched, and a fresh start that resets everything. -/
theorem c1_single_task_slot_witness :
    fetch_data ⟨some "Generating recommendations", 3, 9, "working", false⟩ =
      (.busy 400 "Another task is already running: Generating recommendations",
       ⟨some "Generating recommendations", 3, 9, "working", false⟩) ∧
    (get_recommendations ⟨none, 7, 9, "done", true⟩).2 =
      ⟨some "Generating recommendations", 0, 0, "", false⟩ :=
  ⟨(c1_single_task_slot ⟨some "Generating recommendations", 3, 9, "working", false⟩).1
      "Generating recommendations" rfl,
   ((c1_single_task_slot ⟨none, 7, 9, "done", true⟩).2.2 rfl).2⟩

/-- C2: a worker body that raises still drives both task functions to a
final state with `task_complete = true` and the error text stored in
`task_message`, with `current_task` cleared by the finally block; in that
state both start handlers accept a new job, so a failure never leaves the
slot locked. -/
theorem c2_failure_releases_slot (s : TaskState) (body : WorkerBody)
    (e : String) (se : TaskState) (hraise : ∀ st, body st = .error (e, se)) :
    fetch_data_task s body =
      { se with task_message := "Error: " ++ e, task_complete := true,
                current_task := none } ∧
    recommendations_task s body =
      { se with task_message := "Error: " ++ e, task_complete := true,
                current_task := none } ∧
    (fetch_data (fetch_data_task s body)).1 = .started "Started fetching stock data" ∧
    (get_recommendations (recommendations_task s body)).1 =
      .started "Started generating recommendations" := by
  have hf : fetch_data_task s body =
      { se with task_message := "Error: " ++ e, task_complete := true,
                current_task := none } := by
    simp [fetch_data_task, hraise]
  have hr : recommendations_task s body =
      { se with task_message := "Error: " ++ e, task_complete := true,
                current_task := none } := by
    simp [recommendations_task, hraise]
  refine ⟨hf, hr, ?_, ?_⟩
  · rw [hf]
    simp [fetch_data]
  · rw [hr]
    simp [get_recommendations, pyTruthy]

/-- Witness for C2: a concrete worker raising mid-run leaves the slot free
with the error recorded and completion flagged. -/
theorem c2_failure_releases_slot_witness :
    fetch_data_task ⟨some "Fetching stock data", 0, 0, "", false⟩
        (fun _ => .error ("boom", ⟨some "Fetching stock data", 10, 100, "Loading", false⟩)) =
      ⟨none, 10, 100, "Error: boom", true⟩ :=
  (c2_failure_releases_slot ⟨some "Fetching stock data", 0, 0, "", false⟩
      (fun _ => .error ("boom", ⟨some "Fetching stock data", 10, 100, "Loading", false⟩))
      "boom" ⟨some "Fetching stock data", 10, 100, "Loading", false⟩
      (fun _ => rfl)).1

/-- C3, counterexample: a successfully finishing fetch job does NOT leave
its task name observable; the finally block has already cleared
`current_task` when the task function returns, so `task_status` reports no
task. -/
theorem c3_finish_keeps_name_false :
    ¬ ((task_status (fetch_data_task ⟨some "Fetching stock data", 0, 0, "", false⟩
          (fun st => .ok st))).1 = some "Fetching stock data") := by
  decide

/-- C3 (amended): finishing a background job, successfully or not, sets
`task_complete = true` and at the same time clears `current_task` in the
finally block, so `task_status` right after the job reports a null task
name; the name is not retained until the next start. -/
theorem c3_finish_clears_slot (s : TaskState) (body : WorkerBody) :
    (fetch_data_task s body).task_complete = true ∧
    (fetch_data_task s body).current_task = none ∧
    (task_status (fetch_data_task s body)).1 = none ∧
    (recommendations_task s body).task_complete = true ∧
    (recommendations_task s body).current_task = none ∧
    (task_status (recommendations_task s body)).1 = none := by
  have hf : (fetch_data_task s body).task_complete = true ∧
      (fetch_data_task s body).current_task = none := by
    unfold fetch_data_task
    cases hb : body { s with task_progress := 0, task_total := 100,
                             task_message := "Initializing..." } with
    | ok s2 => simp [hb]
    | error p =>
        obtain ⟨e, se⟩ := p
        simp [hb]
  have hr : (recommendations_task s body).task_complete = true ∧
      (recommendations_task s body).current_task = none := by
    unfold recommendations_task
    cases hb : body { s with task_progress := 0, task_total := 100,
                             task_message := "Initializing AI analysis..." } with
    | ok s2 => simp [hb]
    | error p =>
        obtain ⟨e, se⟩ := p
        simp [hb]
  exact ⟨hf.1, hf.2, by simp [task_status, hf.2], hr.1, hr.2, by simp [task_status, hr.2]⟩

/-- C4: the data load used behind the data-status endpoint is total: the
in-memory cached frame is served when present; otherwise the persisted
mock/seed CSV is returned when it loads; an absent or unreadable file
yields the empty frame and never an exception. -/
theorem c4_load_fallback (mem : Option Frame) (fs : MockCsv) :
    (∀ df, mem = some df → data_status_frame mem fs = df) ∧
    (∀ df, mem = none → fs = .parsed df → data_status_frame mem fs = df) ∧
    (mem = none → fs = .absent → data_status_frame mem fs = []) ∧
    (∀ e, mem = none → fs = .unreadable e → data_status_frame mem fs = []) := by
  refine ⟨?_, ?_, ?_, ?_⟩
  · intro df h
    simp [data_status_frame, h]
  · intro df hm hf
    simp [data_status_frame, load_mock_data, load_mock_data_try, hm, hf]
  · intro hm hf
    simp [data_status_frame, load_mock_data, load_mock_data_try, hm, hf]
  · intro e hm hf
    simp [data_status_frame, load_mock_data, load_mock_data_try, hm, hf]

/-- Witness for C4: with no in-memory cache the seed CSV content is
returned, and with the file also absent the empty frame is returned. -/
theorem c4_load_fallback_witness :
    data_status_frame none (.parsed [⟨"AAPL", "Apple", 25, "Technology"⟩]) =
      [⟨"AAPL", "Apple", 25, "Technology"⟩] ∧
    data_status_frame none .absent = [] :=
  ⟨(c4_load_fallback none (.parsed [⟨"AAPL", "Apple", 25, "Technology"⟩])).2.1
      [⟨"AAPL", "Apple", 25, "Technology"⟩] rfl rfl,
   (c4_load_fallback none .absent).2.2.1 rfl rfl⟩

/-- C10: `save_stock_data` is total and guarded: a missing or empty frame
returns false without attempting a write, a raising CSV write is caught and
returns false, and true is returned exactly after a successful write. -/
theorem c10_save_guard (df : Option Frame) (w : Except String Unit)
    (d : Frame) (e : String) :
    (save_stock_data none w = (false, false)) ∧
    (save_stock_data (some []) w = (false, false)) ∧
    (d ≠ [] → save_stock_data (some d) (.error e) = (false, true)) ∧
    (d ≠ [] → save_stock_data (some d) (.ok ()) = (true, true)) ∧
    ((save_stock_data df w).1 = true →
      ∃ d2, df = some d2 ∧ d2 ≠ [] ∧ w = .ok ()) := by
  refine ⟨rfl, rfl, ?_, ?_, ?_⟩
  · intro hd
    simp [save_stock_data, List.isEmpty_iff, hd]
  · intro hd
    simp [save_stock_data, List.isEmpty_iff, hd]
  · intro htrue
    match df with
    | none => simp [save_stock_data] at htrue
    | some d2 =>
        refine ⟨d2, rfl, ?_, ?_⟩
        · intro hnil
          rw [hnil] at htrue
          simp [save_stock_data] at htrue
        · by_cases hnil : d2.isEmpty
          · simp [save_stock_data, hnil] at htrue
          · match w with
            | .ok () => rfl
            | .error e2 => simp [save_stock_data, hnil] at htrue

/-- Witness for C10: a nonempty frame with a failing write returns false,
and with a successful write returns true. -/
theorem c10_save_guard_witness :
    save_stock_data (some [⟨"AAPL", "Apple", 25, "Technology"⟩]) (.error "disk full") =
      (false, true) ∧
    save_stock_data (some [⟨"AAPL", "Apple", 25, "Technology"⟩]) (.ok ()) =
      (true, true) :=
  ⟨(c10_save_guard (some [⟨"AAPL", "Apple", 25, "Technology"⟩]) (.ok ())
      [⟨"AAPL", "Apple", 25, "Technology"⟩] "disk full").2.2.1 (by decide),
   (c10_save_guard (some [⟨"AAPL", "Apple", 25, "Technology"⟩]) (.ok ())
      [⟨"AAPL", "Apple", 25, "Technology"⟩] "disk full").2.2.2.1 (by decide)⟩

/-- With a provider that fails on every attempt the archive retry loop makes
one attempt per remaining iteration and ends with the degraded record. -/
theorem archiveFetchGo_all_fail (symbol : String)
    (provider : ℕ → Except String YfInfo)
    (hfail : ∀ i, ∃ e, provider i = .error e) :
    ∀ remaining attempt, 1 ≤ remaining →
      archiveFetchGo symbol provider attempt remaining =
        (some { symbol := symbol, name := symbol, ytd := some 0 },
         attempt + remaining) := by
  intro remaining
  induction remaining with
  | zero =>
      intro attempt h
      exact absurd h (by omega)
  | succ r ih =>
      intro attempt _
      obtain ⟨e, he⟩ := hfail attempt
      by_cases hr : r = 0
      · subst hr
        simp [archiveFetchGo, he]
      · have h1 : 1 ≤ r := Nat.one_le_iff_ne_zero.mpr hr
        have step : archiveFetchGo symbol provider attempt (r + 1) =
            archiveFetchGo symbol provider (attempt + 1) r := by
          simp [archiveFetchGo, he, hr]
        rw [step, ih (attempt + 1) h1]
        have harith : attempt + 1 + r = attempt + (r + 1) := by omega
        rw [harith]

/-- C5, counterexample: after retry exhaustion the archive fetcher fills the
name field with the symbol itself, not with the sentinel "Unknown" the claim
requires for textual fields (and the record carries no price field at
all). -/
theorem c5_sentinel_not_unknown :
    (archive_fetch_stock_data "AAPL" (fun _ => .error "network down") 5).1 =
      some { symbol := "AAPL", name := "AAPL", ytd := some 0 } ∧
    ¬ ((archive_fetch_stock_data "AAPL" (fun _ => .error "network down") 5).1 =
        some { symbol := "AAPL", name := "Unknown", ytd := some 0 }) := by
  decide

/-- C5 (amended): the archive fetcher with an always-failing provider makes
exactly `max_retries` attempts and then returns, without raising, a record
with `ytd = 0` and the name set to the symbol itself; the backend fetcher
makes a single attempt and on a failed quote returns, without raising, its
degraded record with `ytd = 0`, `price = 0`, name set to the symbol and the
remaining text fields set to "Unknown". -/
theorem c5_retry_exhaustion (symbol sym2 : String)
    (provider : ℕ → Except String YfInfo) (n : ℕ)
    (profile : Option CompanyProfile) (financials : Option Metrics)
    (hn : 1 ≤ n) (hfail : ∀ i, ∃ e, provider i = .error e) :
    archive_fetch_stock_data symbol provider n =
      (some { symbol := symbol, name := symbol, ytd := some 0 }, n) ∧
    fetch_stock_data sym2 none profile financials = backendSentinel sym2 := by
  constructor
  · have h := archiveFetchGo_all_fail symbol provider hfail n 0 hn
    simpa [archive_fetch_stock_data] using h
  · rfl

/-- Witness for C5 at a concrete always-failing provider and three
configured retries. -/
theorem c5_retry_exhaustion_witness :
    archive_fetch_stock_data "MSFT" (fun _ => .error "boom") 3 =
      (some { symbol := "MSFT", name := "MSFT", ytd := some 0 }, 3) ∧
    fetch_stock_data "MSFT" none none none = backendSentinel "MSFT" :=
  c5_retry_exhaustion "MSFT" "MSFT" (fun _ => .error "boom") 3 none none
    (by omega) (fun _ => ⟨"boom", rfl⟩)

/-- C6, counterexample: for a price history whose start-of-year price is 0
(history [0, 125]) the archive YTD computation divides by zero, producing a
non-finite value, not the claimed 0. -/
theorem c6_zero_start_divides :
    archiveYtdChange [0, 125] = none ∧
    ¬ (archiveYtdChange [0, 125] = some 0) := by
  decide

/-- C6 (amended): the archive fetcher computes YTD as
(current - start) / start * 100 over the calendar-year history, giving 25
for start 100 and current 125, and 0 when the history is empty (missing
start); a start price of exactly 0 is unguarded and divides by zero.  The
backend fetcher computes YTD from the previous close instead of the year
start, guarding both a zero and a missing previous close to 0. -/
theorem c6_ytd_formula (c : ℚ) (t : List ℚ) :
    archiveYtdChange [100, 125] = some 25 ∧
    archiveYtdChange [] = some 0 ∧
    archiveYtdChange (0 :: t) = none ∧
    backendYtd 125 (some 100) = 25 ∧
    backendYtd c none = 0 ∧
    backendYtd c (some 0) = 0 := by
  refine ⟨?_, rfl, ?_, ?_, rfl, ?_⟩
  · simp only [archiveYtdChange]
    norm_num
  · cases h : (0 :: t).getLast? with
    | none => simp [List.getLast?_eq_none_iff] at h
    | some c2 => simp [archiveYtdChange, h]
  · simp only [backendYtd]
    norm_num
  · simp [backendYtd]

/-- C7: for every raw AI response the classification validator returns a
member of the sector list; a response equal to a known sector is returned
unchanged; gibberish falls through to the default "Technology". -/
theorem c7_classify_total (result : String) :
    classify_sector result ∈ SECTORS ∧
    (result ∈ SECTORS → classify_sector result = result) ∧
    classify_sector "asdfqwerty" = "Technology" := by
  refine ⟨?_, ?_, by decide⟩
  · unfold classify_sector
    cases hc : SECTORS.contains result with
    | true =>
        simp only [hc, if_true]
        exact List.mem_of_elem_eq_true hc
    | false =>
        simp only [hc, Bool.false_eq_true, if_false]
        cases hf : SECTORS.find? (fun sector =>
            listHasSub (pyLower sector.data) (pyStrip (pyLower result.data)) ||
            listHasSub (pyStrip (pyLower result.data)) (pyLower sector.data)) with
        | some sec =>
            simp only [hf]
            exact List.mem_of_find?_eq_some hf
        | none =>
            simp only [hf]
            decide
  · intro hmem
    have hc : SECTORS.contains result = true := List.elem_eq_true_of_mem hmem
    simp only [classify_sector, hc, if_true]

/-- Witness for C7 at a known sector name. -/
theorem c7_classify_total_witness :
    classify_sector "Energy" ∈ SECTORS ∧ classify_sector "Energy" = "Energy" :=
  ⟨(c7_classify_total "Energy").1, (c7_classify_total "Energy").2.1 (by decide)⟩

/-- C8: on the five-record frame with YTD values [10, -5, 20, 0, -15] the
top-2 selection yields YTDs [20, 10] and the bottom-2 selection [-15, -5];
the per-sector mean table pairs every sector with the mean YTD of its rows;
and in general the top selection is sorted descending by YTD and the bottom
selection ascending. -/
theorem c8_ranking (l : List StockRow) (n : ℕ) :
    ((top_performers sampleRows 2).map (fun r => r.ytd) = [20, 10]) ∧
    ((bottom_performers sampleRows 2).map (fun r => r.ytd) = [-15, -5]) ∧
    (sector_performance sampleRows = [("Tech", 5), ("Health", -5 / 2)]) ∧
    (((top_performers l n).map (fun r => r.ytd)).Pairwise (fun a b => b ≤ a)) ∧
    (((bottom_performers l n).map (fun r => r.ytd)).Pairwise (fun a b => a ≤ b)) := by
  refine ⟨by decide, by decide, ?_, ?_, ?_⟩
  · have hkeys : List.insertionSort (fun a b : String => listCharLe a.data b.data = true)
        ((sampleRows.map (fun r => r.sector)).dedup) = ["Health", "Tech"] := by decide
    have hfh : sampleRows.filter (fun r => r.sector == "Health") =
        [⟨"B", "B", -5, "Health"⟩, ⟨"D", "D", 0, "Health"⟩] := by decide
    have hft : sampleRows.filter (fun r => r.sector == "Tech") =
        [⟨"A", "A", 10, "Tech"⟩, ⟨"C", "C", 20, "Tech"⟩, ⟨"E", "E", -15, "Tech"⟩] := by decide
    simp only [sector_performance, hkeys, List.map_cons, List.map_nil, hfh, hft,
      List.sum_cons, List.sum_nil, List.length_cons, List.length_nil]
    norm_num [List.insertionSort, List.orderedInsert]
  · haveI : IsTotal StockRow (fun a b => b.ytd ≤ a.ytd) :=
      ⟨fun a b => le_total b.ytd a.ytd⟩
    haveI : IsTrans StockRow (fun a b => b.ytd ≤ a.ytd) :=
      ⟨fun a b c2 hab hbc => le_trans hbc hab⟩
    have hs : (List.insertionSort (fun a b => b.ytd ≤ a.ytd) l).Pairwise
        (fun a b => b.ytd ≤ a.ytd) := List.sorted_insertionSort _ l
    exact List.pairwise_map.mpr (hs.sublist (List.take_sublist n _))
  · haveI : IsTotal StockRow (fun a b => a.ytd ≤ b.ytd) :=
      ⟨fun a b => le_total a.ytd b.ytd⟩
    haveI : IsTrans StockRow (fun a b => a.ytd ≤ b.ytd) :=
      ⟨fun a b c2 hab hbc => le_trans hab hbc⟩
    have hs : (List.insertionSort (fun a b => a.ytd ≤ b.ytd) l).Pairwise
        (fun a b => a.ytd ≤ b.ytd) := List.sorted_insertionSort _ l
    exact List.pairwise_map.mpr (hs.sublist (List.take_sublist n _))

/-- C9, counterexample: the filename "../secret.txt" resolves outside the
results directory, yet both handlers pass it through to the filesystem
probe instead of rejecting it: the extension check is the only guard that
runs before filesystem access. -/
theorem c9_traversal_not_rejected :
    resolvesOutside "../secret.txt" = true ∧
    download_file "../secret.txt" = .filesystemProbe "data/results/../secret.txt" ∧
    view_recommendation "../secret.txt" = .filesystemProbe "data/results/../secret.txt" ∧
    ¬ (download_file "../secret.txt" = .rejectedInvalidType) ∧
    ¬ (view_recommendation "../secret.txt" = .rejectedInvalidType) := by
  decide

/-- C9 (amended): a requested filename that does not end in .md or .txt
(such as "script.exe" or "../../etc/passwd") is rejected before any
filesystem access by both handlers; the extension check is the only guard,
so a .md/.txt name that resolves outside the results directory is not
rejected there. -/
theorem c9_extension_guard (filename : String)
    (hmd : pyEndsWith filename ".md" = false)
    (htxt : pyEndsWith filename ".txt" = false) :
    download_file filename = .rejectedInvalidType ∧
    view_recommendation filename = .rejectedInvalidType ∧
    download_file "script.exe" = .rejectedInvalidType ∧
    download_file "../../etc/passwd" = .rejectedInvalidType ∧
    view_recommendation "script.exe" = .rejectedInvalidType ∧
    view_recommendation "../../etc/passwd" = .rejectedInvalidType := by
  refine ⟨?_, ?_, by decide, by decide, by decide, by decide⟩
  · simp [download_file, hmd, htxt]
  · simp [view_recommendation, hmd, htxt]

/-- Witness for C9 at the concrete filename "script.exe". -/
theorem c9_extension_guard_witness :
    download_file "script.exe" = .rejectedInvalidType ∧
    view_recommendation "script.exe" = .rejectedInvalidType :=
  ⟨(c9_extension_guard "script.exe" (by decide) (by decide)).1,
   (c9_extension_guard "script.exe" (by decide) (by decide)).2.1⟩

end StockSpec
